import Mathlib

/-!
Verification of the resilient API-access layer of the etax application
(circuit breaker, rate limiter, retry-with-backoff, idempotency manager,
token-caching authenticator, resilient HTTP client).

The Lean definitions below are a shallow embedding of the Python sources:
  - etax/utils/resilience.py   (CircuitBreaker, RateLimiter, retry_with_backoff,
                                resilient_call and its pre-configured instances)
  - etax/utils/idempotency.py  (IdempotencyManager)
  - etax/api/http_client.py    (ETaxHTTPClient.get / _handle_response)
  - etax/api/resilient_client.py (ResilientETaxClient._execute_with_resilience)
  - etax/api/auth.py           (ETaxAuth token tiers and _request_new_token)
  - etax/api/cache.py          (ETaxCache.get_token)

Time is modelled by the rationals (seconds); Python float timestamps and
datetime values live on one common timeline.  Exceptions are modelled by an
inductive type, fallible code returns Except.
-/

namespace Etax

/-- Python exception classes relevant to the resilience layer.
connectionError and timeoutError are the builtins named in the
retry_with_backoff exceptions tuple of resilient_call; etaxHTTPError carries
the status_code attribute of ETaxHTTPError (http_client.py line 19);
circuitBreakerOpen and rateLimitExceeded are the exception classes of
resilience.py lines 163 and 227; attributeError models Python attribute
lookup failure; otherError stands for any other exception class. -/
inductive PyExc where
  | connectionError
  | timeoutError
  | etaxHTTPError (status : Option Int)
  | circuitBreakerOpen
  | rateLimitExceeded
  | attributeError
  | otherError (msg : String)
deriving DecidableEq, Repr

/-! ## Circuit breaker (etax/utils/resilience.py lines 26-165) -/

/-- CircuitState enum (resilience.py lines 26-30); the Python member OPEN is
rendered opened because open is a Lean keyword. -/
inductive CircuitState where
  | closed
  | opened
  | halfOpen
deriving DecidableEq, Repr

/-- Constructor arguments of the CircuitBreaker dataclass
(resilience.py lines 38-41). -/
structure CBConfig where
  failure_threshold : Nat
  recovery_timeout : ℚ
  half_open_max_calls : Nat
deriving DecidableEq, Repr

/-- Mutable fields of a CircuitBreaker instance (resilience.py lines 43-46). -/
structure CBState where
  state : CircuitState
  failure_count : Nat
  last_failure_time : Option ℚ
  half_open_calls : Nat
deriving DecidableEq, Repr

/-- Field defaults of the dataclass: CLOSED, 0 failures, no failure time. -/
def initial_state : CBState := ⟨CircuitState.closed, 0, none, 0⟩

/-- Result of CircuitBreaker._should_allow_request (resilience.py lines
76-98): whether the request is admitted, the updated in-process state, and
whether _save_state wrote the state to the shared cache. -/
structure AllowOut where
  allow : Bool
  st : CBState
  saved : Bool
deriving DecidableEq, Repr

/-- CircuitBreaker._should_allow_request (resilience.py lines 76-98).
CLOSED admits; OPEN admits only when now - last_failure_time exceeds
recovery_timeout, transitioning to HALF_OPEN (probe counter reset, state
saved); HALF_OPEN admits up to half_open_max_calls probes. -/
def should_allow_request (cfg : CBConfig) (now : ℚ) (s : CBState) : AllowOut :=
  match s.state with
  | CircuitState.closed => ⟨true, s, false⟩
  | CircuitState.opened =>
    match s.last_failure_time with
    | some t =>
      if now - t > cfg.recovery_timeout then
        ⟨true, { s with state := CircuitState.halfOpen, half_open_calls := 0 }, true⟩
      else ⟨false, s, false⟩
    | none => ⟨false, s, false⟩
  | CircuitState.halfOpen =>
    if s.half_open_calls < cfg.half_open_max_calls then
      ⟨true, { s with half_open_calls := s.half_open_calls + 1 }, false⟩
    else ⟨false, s, false⟩

/-- CircuitBreaker._on_success (resilience.py lines 100-111).  The Bool is
true when _save_state was called.  In HALF_OPEN: transition to CLOSED, reset
failure_count, save.  In CLOSED: reset failure_count only (no save). -/
def on_success (s : CBState) : CBState × Bool :=
  match s.state with
  | CircuitState.halfOpen =>
    ({ s with state := CircuitState.closed, failure_count := 0 }, true)
  | CircuitState.closed => ({ s with failure_count := 0 }, false)
  | CircuitState.opened => (s, false)

/-- CircuitBreaker._on_failure (resilience.py lines 113-131).  Increment
failure_count and stamp last_failure_time; HALF_OPEN re-opens (saved);
CLOSED opens once failure_count reaches failure_threshold (saved). -/
def on_failure (cfg : CBConfig) (now : ℚ) (s : CBState) : CBState × Bool :=
  let s1 := { s with failure_count := s.failure_count + 1, last_failure_time := some now }
  match s.state with
  | CircuitState.halfOpen => ({ s1 with state := CircuitState.opened }, true)
  | CircuitState.closed =>
    if s1.failure_count ≥ cfg.failure_threshold then
      ({ s1 with state := CircuitState.opened }, true)
    else (s1, false)
  | CircuitState.opened => (s1, false)

/-- CircuitBreaker.reset (resilience.py lines 153-160): back to the initial
state, always saved to the shared cache. -/
def cb_reset : CBState × Bool := (initial_state, true)

/-- How a _save_state call (resilience.py lines 63-70) affects the shared
cache entry for this breaker: written only when the operation saved. -/
def apply_save (shared : Option CBState) (saved : Bool) (s : CBState) : Option CBState :=
  if saved then some s else shared

/-- Result of one wrapped invocation via the CircuitBreaker.__call__
decorator: the outcome raised or returned, the breaker state afterwards, and
whether the wrapped function was invoked at all. -/
structure CallOut (α : Type) where
  result : Except PyExc α
  st : CBState
  invoked : Bool

/-- CircuitBreaker.__call__ wrapper (resilience.py lines 133-151): reject
with CircuitBreakerOpen when _should_allow_request denies; otherwise invoke
the wrapped function, feed the outcome to _on_success / _on_failure, and
pass the result or exception through. -/
def circuit_call {α : Type} (cfg : CBConfig) (now : ℚ)
    (f : Unit → Except PyExc α) (s : CBState) : CallOut α :=
  let a := should_allow_request cfg now s
  if a.allow then
    match f () with
    | Except.ok v => ⟨Except.ok v, (on_success a.st).1, true⟩
    | Except.error e => ⟨Except.error e, (on_failure cfg now a.st).1, true⟩
  else ⟨Except.error PyExc.circuitBreakerOpen, a.st, false⟩

/-! ## Rate limiter (etax/utils/resilience.py lines 168-224) -/

/-- Mutable fields of a RateLimiter instance: the token count (a Python
float, modelled as ℚ) and the last refill timestamp. -/
structure RLState where
  tokens : ℚ
  last_update : ℚ
deriving DecidableEq, Repr

/-- RateLimiter._refill (resilience.py lines 183-191):
tokens := min(calls, tokens + elapsed * calls / period). -/
def refill (calls period : ℚ) (now : ℚ) (s : RLState) : RLState :=
  ⟨min calls (s.tokens + (now - s.last_update) * (calls / period)), now⟩

/-- One iteration of the RateLimiter.acquire loop body up to the token test
(resilience.py lines 198-203): refill, then take a token when at least one
is present. -/
def acquire_step (calls period now : ℚ) (s : RLState) : Bool × RLState :=
  let s1 := refill calls period now s
  if 1 ≤ s1.tokens then (true, ⟨s1.tokens - 1, s1.last_update⟩) else (false, s1)

/-- RateLimiter.acquire polling loop (resilience.py lines 193-212).  The
loop polls every 0.1 s; non-blocking calls give up after one attempt, and a
blocking call with a timeout gives up once now - start reaches the timeout.
The Nat argument is fuel bounding the number of polls; every use in this
file supplies enough fuel that the fuel-exhaustion branch is unreachable. -/
def acquire_loop (calls period : ℚ) (blocking : Bool) (timeout : Option ℚ)
    (start : ℚ) : Nat → ℚ → RLState → Bool × RLState
  | 0, _, s => (false, s)
  | fuel + 1, t, s =>
    let r := acquire_step calls period t s
    if r.1 then (true, r.2)
    else if !blocking then (false, r.2)
    else
      match timeout with
      | some limit =>
        if t - start ≥ limit then (false, r.2)
        else acquire_loop calls period blocking timeout start fuel (t + 1/10) r.2
      | none => acquire_loop calls period blocking timeout start fuel (t + 1/10) r.2

/-- RateLimiter.acquire entry point: start_time is the current time. -/
def acquire (calls period : ℚ) (blocking : Bool) (timeout : Option ℚ)
    (fuel : Nat) (now : ℚ) (s : RLState) : Bool × RLState :=
  acquire_loop calls period blocking timeout now fuel now s

/-- acquire with blocking=False: exactly one refill-and-test attempt. -/
def acquire_nonblocking (calls period now : ℚ) (s : RLState) : Bool × RLState :=
  acquire calls period false none 1 now s

/-- RateLimiter.__post_init__ (resilience.py lines 179-181): the bucket
starts full. -/
def rl_initial (calls now : ℚ) : RLState := ⟨calls, now⟩

/-! ## Retry with backoff (etax/utils/resilience.py lines 232-272) -/

/-- Result of a retry_with_backoff-wrapped invocation: the final outcome,
how many times the wrapped function was invoked, and the sequence of sleep
durations between attempts. -/
structure RetryOut (α : Type) where
  result : Except PyExc α
  attempts : Nat
  sleeps : List ℚ
deriving Repr

/-- The retry loop of retry_with_backoff (resilience.py lines 243-268),
recursing on the number of retries remaining.  The wrapped function is
indexed by the attempt number so flaky behaviour can be expressed.  An
exception not matching the exceptions tuple propagates immediately; a
matching exception on the final attempt is re-raised; otherwise the loop
sleeps delay seconds and continues with delay := min(delay * base,
max_delay). -/
def retry_go {α : Type} (retryable : PyExc → Bool) (base max_delay : ℚ)
    (f : Nat → Except PyExc α) : Nat → Nat → ℚ → RetryOut α
  | attempt, 0, _ =>
    match f attempt with
    | Except.ok v => ⟨Except.ok v, 1, []⟩
    | Except.error e => ⟨Except.error e, 1, []⟩
  | attempt, remaining + 1, delay =>
    match f attempt with
    | Except.ok v => ⟨Except.ok v, 1, []⟩
    | Except.error e =>
      if retryable e then
        let rest := retry_go retryable base max_delay f (attempt + 1) remaining
          (min (delay * base) max_delay)
        ⟨rest.result, rest.attempts + 1, delay :: rest.sleeps⟩
      else ⟨Except.error e, 1, []⟩

/-- retry_with_backoff decorator applied to f, starting at attempt 0 with
delay initial_delay and max_retries retries remaining. -/
def retry_with_backoff {α : Type} (max_retries : Nat)
    (initial_delay max_delay base : ℚ) (retryable : PyExc → Bool)
    (f : Nat → Except PyExc α) : RetryOut α :=
  retry_go retryable base max_delay f 0 max_retries initial_delay

/-- The exceptions tuple (ConnectionError, TimeoutError) used by
resilient_call (resilience.py line 293): only the two transport builtins
match; in particular ETaxHTTPError does not. -/
def transport_retryable : PyExc → Bool
  | PyExc.connectionError => true
  | PyExc.timeoutError => true
  | _ => false

/-! ## resilient_call composition (etax/utils/resilience.py lines 275-297) -/

/-- Pre-configured etax_circuit_breaker arguments (resilience.py lines
276-280): failure_threshold=5, recovery_timeout=60 (half_open_max_calls
keeps its default 3). -/
def etax_cb_config : CBConfig := ⟨5, 60, 3⟩

/-- Pre-configured etax_rate_limiter arguments (resilience.py lines
282-286): calls=60, period=60. -/
def etax_rl_calls : ℚ := 60

def etax_rl_period : ℚ := 60

/-- Result of a resilient_call: outcome, breaker state, limiter state,
number of invocations of the wrapped function, and backoff sleeps. -/
structure ResilientOut (α : Type) where
  result : Except PyExc α
  cb : CBState
  rl : RLState
  attempts : Nat
  sleeps : List ℚ

/-- resilient_call (resilience.py lines 289-297).  The decorator stack

  circuit_breaker (rate_limiter (retry_with_backoff func))

executes outside-in: the circuit breaker admission test runs first (a
rejection raises CircuitBreakerOpen before anything else); only then does
the rate limiter acquire a token, blocking up to 30 s (failure raises
RateLimitExceeded); only then does the retry loop invoke the wrapped
function, with max_retries=3, initial_delay=1, max_delay=60, base=2 and the
(ConnectionError, TimeoutError) tuple.  Any exception escaping the inner
layers is seen by the breaker as a failure.  The whole call is modelled at
one instant now; backoff sleeps are recorded rather than advancing the
clock. -/
def resilient_call {α : Type} (now : ℚ) (f : Nat → Except PyExc α)
    (cb : CBState) (rl : RLState) : ResilientOut α :=
  let a := should_allow_request etax_cb_config now cb
  if a.allow then
    let acq := acquire etax_rl_calls etax_rl_period true (some 30) 400 now rl
    if acq.1 then
      let r := retry_with_backoff 3 1 60 2 transport_retryable f
      match r.result with
      | Except.ok v => ⟨Except.ok v, (on_success a.st).1, acq.2, r.attempts, r.sleeps⟩
      | Except.error e =>
        ⟨Except.error e, (on_failure etax_cb_config now a.st).1, acq.2, r.attempts, r.sleeps⟩
    else
      ⟨Except.error PyExc.rateLimitExceeded, (on_failure etax_cb_config now a.st).1,
        acq.2, 0, []⟩
  else ⟨Except.error PyExc.circuitBreakerOpen, a.st, rl, 0, []⟩

/-! ## HTTP client (etax/api/http_client.py) -/

/-- Subset of a parsed JSON response envelope relevant to
_handle_response: the application-level code field and message. -/
structure RespBody where
  code : Option Int
  message : Option String
deriving DecidableEq, Repr

/-- Transport-level outcome of the underlying requests.get / requests.post
call inside ETaxHTTPClient.get (http_client.py lines 231-241): a timeout, a
connection error, or an HTTP response. -/
inductive TransportOutcome where
  | timeout
  | connError (msg : String)
  | response (status : Int) (body : Option RespBody)

/-- ETaxHTTPClient._handle_response (http_client.py lines 172-208).  A body
that fails to parse as JSON (modelled none) raises ETaxHTTPError for status
at least 400 and otherwise returns a raw-response wrapper; a parsed body
with a non-zero code field raises ETaxHTTPError carrying that code; then a
status of at least 400 raises ETaxHTTPError with the status. -/
def handle_response (status : Int) (body : Option RespBody) : Except PyExc RespBody :=
  match body with
  | none =>
    if status ≥ 400 then Except.error (PyExc.etaxHTTPError (some status))
    else Except.ok ⟨none, none⟩
  | some data =>
    match data.code with
    | some c =>
      if c ≠ 0 then Except.error (PyExc.etaxHTTPError (some c))
      else if status ≥ 400 then Except.error (PyExc.etaxHTTPError (some status))
      else Except.ok data
    | none =>
      if status ≥ 400 then Except.error (PyExc.etaxHTTPError (some status))
      else Except.ok data

/-- ETaxHTTPClient.get (http_client.py lines 210-247): a requests Timeout is
re-raised as ETaxHTTPError with status_code 408, a requests ConnectionError
as ETaxHTTPError with status_code 503, and a response goes through
_handle_response.  ETaxHTTPClient.post (lines 249-288) has the identical
error translation. -/
def http_get_result (o : TransportOutcome) : Except PyExc RespBody :=
  match o with
  | TransportOutcome.timeout => Except.error (PyExc.etaxHTTPError (some 408))
  | TransportOutcome.connError _ => Except.error (PyExc.etaxHTTPError (some 503))
  | TransportOutcome.response status body => handle_response status body

/-! ## Resilient client (etax/api/resilient_client.py) -/

/-- The attribute names defined on the CircuitBreaker dataclass
(resilience.py lines 33-160): its fields and its methods.  There is no
attribute named call; the only invocation interface is the decorator
protocol dunder method. -/
def circuit_breaker_attrs : List String :=
  ["name", "failure_threshold", "recovery_timeout", "half_open_max_calls",
   "state", "reset",
   "dunder_post_init", "dunder_call",
   "private_state", "private_failure_count", "private_last_failure_time",
   "private_half_open_calls", "private_lock",
   "private_load_state", "private_save_state", "private_should_allow_request",
   "private_on_success", "private_on_failure"]

/-- ResilientETaxClient._execute_with_resilience (resilient_client.py lines
136-179).  When the circuit breaker is available the code evaluates
self.circuit_breaker.call(func, ...): Python attribute lookup of the name
call on the CircuitBreaker instance.  The name is not defined on the class,
so the lookup raises AttributeError; the except block re-raises it after
logging.  Were the attribute present, the call would run through the
breaker (the circuit_call branch below); without the breaker the function
is invoked directly.  The Bool in the result records whether the inner
client function was invoked. -/
def execute_with_resilience {α : Type} (breaker_available : Bool)
    (cfg : CBConfig) (now : ℚ) (f : Unit → Except PyExc α) (cb : CBState) :
    Except PyExc α × CBState × Bool :=
  if breaker_available then
    if circuit_breaker_attrs.contains "call" then
      let out := circuit_call cfg now f cb
      (out.result, out.st, out.invoked)
    else
      (Except.error PyExc.attributeError, cb, false)
  else
    match f () with
    | Except.ok v => (Except.ok v, cb, true)
    | Except.error e => (Except.error e, cb, true)

/-- ResilientETaxClient.get (resilient_client.py lines 209-218) routes the
inner client GET through _execute_with_resilience. -/
def resilient_client_get {α : Type} (breaker_available : Bool) (cfg : CBConfig)
    (now : ℚ) (inner_get : Unit → Except PyExc α) (cb : CBState) :
    Except PyExc α × CBState × Bool :=
  execute_with_resilience breaker_available cfg now inner_get cb

/-- ResilientETaxClient.post (resilient_client.py lines 220-230) routes the
inner client POST through _execute_with_resilience. -/
def resilient_client_post {α : Type} (breaker_available : Bool) (cfg : CBConfig)
    (now : ℚ) (inner_post : Unit → Except PyExc α) (cb : CBState) :
    Except PyExc α × CBState × Bool :=
  execute_with_resilience breaker_available cfg now inner_post cb

/-! ## Authentication (etax/api/auth.py) and token cache (etax/api/cache.py) -/

/-- ETaxAuth.GATEWAY_URL (auth.py line 44). -/
def GATEWAY_URL : String := "https://api.frappe.mn"

/-- ETaxAuth.GATEWAY_PATHS lookup with the Staging default
(auth.py lines 45-48 and 96). -/
def gateway_path (env : String) : String :=
  if env = "Production" then "/auth/itc" else "/auth/itc-staging"

/-- ETaxAuth.AUTH_URLS lookup with the Staging default
(auth.py lines 51-54 and 102). -/
def auth_url_direct (env : String) : String :=
  if env = "Production" then "https://auth.itc.gov.mn/auth/realms/ITC"
  else "https://st.auth.itc.gov.mn/auth/realms/Staging"

/-- ETaxAuth.token_endpoint (auth.py lines 109-112): the gateway endpoint. -/
def token_endpoint (env : String) : String :=
  GATEWAY_URL ++ gateway_path env ++ "/protocol/openid-connect/token"

/-- ETaxAuth.token_endpoint_direct (auth.py lines 114-117): the direct
fallback endpoint.  No code path in auth.py references it. -/
def token_endpoint_direct (env : String) : String :=
  auth_url_direct env ++ "/protocol/openid-connect/token"

/-- Outcome of the one requests.post of _request_new_token: a token
response, a non-2xx HTTP error response with an optional parsed
error_description, or a requests.exceptions.RequestException. -/
inductive AuthNetResult where
  | ok (access_token : Option String) (expires_in : ℚ)
  | httpError (status : Nat) (error_desc : Option String)
  | requestException (msg : String)

/-- ETaxAuth._request_new_token (auth.py lines 192-250).  The network is a
function from endpoint URL to outcome; the returned list records every
endpoint the code actually contacts.  Missing credentials raise
ETaxAuthError before any request.  A 200 response yields the access token
(ETaxAuthError when the token field is absent, auth.py lines 252-259); a
non-2xx response raises ETaxAuthError "Authentication failed: ..."; a
RequestException raises ETaxAuthError "Gateway connection failed: ...".
No branch contacts token_endpoint_direct. -/
def request_new_token (env : String) (username password : Option String)
    (net : String → AuthNetResult) : Except String String × List String :=
  match username, password with
  | some _, some _ =>
    let ep := token_endpoint env
    match net ep with
    | AuthNetResult.ok (some tok) _ => (Except.ok tok, [ep])
    | AuthNetResult.ok none _ => (Except.error "No access token in response", [ep])
    | AuthNetResult.httpError status desc =>
      let msg := match desc with
        | some d => d
        | none => "HTTP " ++ toString status
      (Except.error ("Authentication failed: " ++ msg), [ep])
    | AuthNetResult.requestException m =>
      (Except.error ("Gateway connection failed: " ++ m), [ep])
  | _, _ => (Except.error "Username and password are required", [])

/-- ETaxAuth._is_token_valid (auth.py lines 157-162): the in-process token
is valid when present and now is more than 60 seconds before its expiry.
(_process_token_response only ever stores a truthy token, so a present
token is never the empty string.) -/
def is_token_valid (token : Option String) (expiry : Option ℚ) (now : ℚ) : Bool :=
  match token, expiry with
  | some _, some e => decide (now < e - 60)
  | _, _ => false

/-- A token entry in the shared cache (cache.py ETaxCache.set_token,
lines 121-135): the access token and its absolute expiry time. -/
structure CacheTokenData where
  access_token : String
  expires_at : ℚ
deriving DecidableEq, Repr

/-- ETaxCache.get_token (cache.py lines 109-119): return the cached token
only when expires_at > now + 60. -/
def etax_cache_get_token (now : ℚ) (entry : Option CacheTokenData) :
    Option CacheTokenData :=
  match entry with
  | some d => if d.expires_at > now + 60 then some d else none
  | none => none

/-- ETaxAuth._load_stored_token (auth.py lines 164-190): fail when no
stored expiry, when now ≥ expiry - 60, or when no stored token; otherwise
hydrate from the persisted settings record. -/
def load_stored_token (now : ℚ) (stored : Option (String × ℚ)) : Bool :=
  match stored with
  | some (_, expiry) => if now ≥ expiry - 60 then false else true
  | none => false

/-- Which tier satisfied a get_token call. -/
inductive TokenSource where
  | memory
  | sharedCache
  | persisted
  | refreshed
deriving DecidableEq, Repr

/-- ETaxAuth.get_token (auth.py lines 119-155): level 1 in-memory cache,
level 2 shared cache, level 3 persisted store, then _request_new_token.
force_refresh skips every tier. -/
def get_token (now : ℚ) (mem_token : Option String) (mem_expiry : Option ℚ)
    (cache_entry : Option CacheTokenData) (stored : Option (String × ℚ))
    (force_refresh : Bool) : TokenSource :=
  if ¬force_refresh ∧ is_token_valid mem_token mem_expiry now then
    TokenSource.memory
  else if ¬force_refresh ∧ (etax_cache_get_token now cache_entry).isSome then
    TokenSource.sharedCache
  else if ¬force_refresh ∧ load_stored_token now stored then
    TokenSource.persisted
  else TokenSource.refreshed

/-! ## Idempotency (etax/utils/idempotency.py)

generate_key serializes the keyword parameters with
json.dumps(params, sort_keys=True, default=str) and hashes the string
operation + ":" + serialization with SHA-256, keeping the first 16 hex
digits.  PyVal models the Python values that can appear as parameters;
other covers values json cannot serialize, which default=str turns into
their str() representation (serialized as a JSON string). -/

inductive PyVal where
  | none
  | bool (b : Bool)
  | int (n : Int)
  | str (s : String)
  | list (xs : List PyVal)
  | tuple (xs : List PyVal)
  | other (str_rep : String)

/-- Four lowercase hex digits of n (n < 65536), as used by the \uXXXX
escapes of json.dumps with its default ensure_ascii=True. -/
def hex4 (n : Nat) : String :=
  let dig := fun (d : Nat) =>
    String.singleton (Char.ofNat (if d < 10 then 48 + d else 87 + d))
  dig (n / 4096 % 16) ++ dig (n / 256 % 16) ++ dig (n / 16 % 16) ++ dig (n % 16)

/-- JSON escaping of one character, following the CPython json encoder with
ensure_ascii=True: backslash and double quote are backslash-escaped, the
common control characters use their short escapes, other control characters
and all non-ASCII characters become \uXXXX (with a surrogate pair above
the BMP). -/
def json_escape_char (c : Char) : String :=
  if c = '\\' then "\\\\"
  else if c = '"' then "\\\""
  else if c = '\n' then "\\n"
  else if c = '\t' then "\\t"
  else if c = '\r' then "\\r"
  else if c.toNat = 8 then "\\b"
  else if c.toNat = 12 then "\\f"
  else if c.toNat < 32 then "\\u" ++ hex4 c.toNat
  else if c.toNat < 127 then String.singleton c
  else if c.toNat < 65536 then "\\u" ++ hex4 c.toNat
  else
    let v := c.toNat - 65536
    "\\u" ++ hex4 (55296 + v / 1024) ++ "\\u" ++ hex4 (56320 + v % 1024)

/-- A Python string rendered as a JSON string literal. -/
def json_str (s : String) : String :=
  "\"" ++ String.join (s.data.map json_escape_char) ++ "\""

mutual

/-- json.dumps of a single value (CPython defaults: ensure_ascii=True,
separators (", ", ": ")), with default=str mapping non-serializable values
to their str() as a JSON string.  Python tuples serialize exactly like
lists. -/
def dumps : PyVal → String
  | PyVal.none => "null"
  | PyVal.bool true => "true"
  | PyVal.bool false => "false"
  | PyVal.int n => toString n
  | PyVal.str s => json_str s
  | PyVal.list xs => "[" ++ dumps_list xs ++ "]"
  | PyVal.tuple xs => "[" ++ dumps_list xs ++ "]"
  | PyVal.other r => json_str r

/-- Comma-joined serializations of the elements of a JSON array. -/
def dumps_list : List PyVal → String
  | [] => ""
  | [x] => dumps x
  | x :: y :: xs => dumps x ++ ", " ++ dumps_list (y :: xs)

end

/-- The key order used by sort_keys=True: compare parameter names with the
string order (Python compares strings by code point, as Lean does). -/
def key_le (a b : String × PyVal) : Prop := a.1 ≤ b.1

instance : DecidableRel key_le := fun a b => inferInstanceAs (Decidable (a.1 ≤ b.1))

instance : IsTotal (String × PyVal) key_le := ⟨fun a b => le_total a.1 b.1⟩

instance : IsTrans (String × PyVal) key_le := ⟨fun _ _ _ h1 h2 => le_trans h1 h2⟩

/-- Strict version of key_le, used to identify the two canonical orders of
duplicate-free parameter lists. -/
def key_lt (a b : String × PyVal) : Prop := a.1 < b.1

instance : IsAntisymm (String × PyVal) key_lt :=
  ⟨fun _ _ h1 h2 => absurd (lt_trans h1 h2) (lt_irrefl _)⟩

/-- sort_keys=True: the parameter dict is serialized in ascending key
order.  Python dict keys are unique, so this is the unique key-sorted
arrangement; insertion sort is as good as any. -/
def sort_params (params : List (String × PyVal)) : List (String × PyVal) :=
  List.insertionSort key_le params

/-- json.dumps(params, sort_keys=True, default=str) of the keyword
parameter dict. -/
def dumps_params (params : List (String × PyVal)) : String :=
  "\x7b" ++
    String.intercalate ", "
      ((sort_params params).map (fun kv => json_str kv.1 ++ ": " ++ dumps kv.2)) ++
    "\x7d"

/-- key_source of IdempotencyManager.generate_key (idempotency.py line 47):
operation and canonical parameter serialization. -/
def key_source (operation : String) (params : List (String × PyVal)) : String :=
  operation ++ ":" ++ dumps_params params

/-! ### SHA-256 (the hashlib.sha256 call of generate_key), FIPS 180-4,
on Nat words reduced mod 2^32. -/

/-- Right rotation of a 32-bit word. -/
def rotr32 (n x : Nat) : Nat :=
  (x / 2 ^ n + x % 2 ^ n * 2 ^ (32 - n)) % 2 ^ 32

/-- Bitwise complement of a 32-bit word. -/
def not32 (x : Nat) : Nat := 2 ^ 32 - 1 - x % 2 ^ 32

/-- Three-way xor. -/
def xor3 (a b c : Nat) : Nat := Nat.xor (Nat.xor a b) c

/-- SHA-256 Ch function. -/
def sha_ch (x y z : Nat) : Nat := Nat.xor (Nat.land x y) (Nat.land (not32 x) z)

/-- SHA-256 Maj function. -/
def sha_maj (x y z : Nat) : Nat :=
  xor3 (Nat.land x y) (Nat.land x z) (Nat.land y z)

/-- SHA-256 big sigma 0. -/
def bsig0 (x : Nat) : Nat := xor3 (rotr32 2 x) (rotr32 13 x) (rotr32 22 x)

/-- SHA-256 big sigma 1. -/
def bsig1 (x : Nat) : Nat := xor3 (rotr32 6 x) (rotr32 11 x) (rotr32 25 x)

/-- SHA-256 small sigma 0. -/
def ssig0 (x : Nat) : Nat := xor3 (rotr32 7 x) (rotr32 18 x) (x / 2 ^ 3)

/-- SHA-256 small sigma 1. -/
def ssig1 (x : Nat) : Nat := xor3 (rotr32 17 x) (rotr32 19 x) (x / 2 ^ 10)

/-- The 64 SHA-256 round constants (decimal). -/
def shaK : List Nat :=
  [1116352408, 1899447441, 3049323471, 3921009573, 961987163, 1508970993,
   2453635748, 2870763221, 3624381080, 310598401, 607225278, 1426881987,
   1925078388, 2162078206, 2614888103, 3248222580, 3835390401, 4022224774,
   264347078, 604807628, 770255983, 1249150122, 1555081692, 1996064986,
   2554220882, 2821834349, 2952996808, 3210313671, 3336571891, 3584528711,
   113926993, 338241895, 666307205, 773529912, 1294757372, 1396182291,
   1695183700, 1986661051, 2177026350, 2456956037, 2730485921, 2820302411,
   3259730800, 3345764771, 3516065817, 3600352804, 4094571909, 275423344,
   430227734, 506948616, 659060556, 883997877, 958139571, 1322822218,
   1537002063, 1747873779, 1955562222, 2024104815, 2227730452, 2361852424,
   2428436474, 2756734187, 3204031479, 3329325298]

/-- The initial SHA-256 hash value (decimal). -/
def shaH0 : List Nat :=
  [1779033703, 3144134277, 1013904242, 2773480762,
   1359893119, 2600822924, 528734635, 1541459225]

/-- Big-endian bytes of a number, fixed width. -/
def beBytes : Nat → Nat → List Nat
  | 0, _ => []
  | w + 1, n => n / 2 ^ (8 * w) % 256 :: beBytes w n

/-- SHA-256 message padding: append 0x80, zeros to 56 mod 64, then the
bit length as 8 big-endian bytes. -/
def shaPad (msg : List Nat) : List Nat :=
  let l := msg.length
  let zeros := (119 - l % 64) % 64
  msg ++ [128] ++ List.replicate zeros 0 ++ beBytes 8 (8 * l)

/-- Split a byte list into 64-byte blocks. -/
def chunks64 : List Nat → List (List Nat)
  | [] => []
  | x :: xs => (x :: xs).take 64 :: chunks64 ((x :: xs).drop 64)
termination_by l => l.length
decreasing_by simp; omega

/-- Combine each group of 4 bytes into a big-endian 32-bit word. -/
def bytesToWords : List Nat → List Nat
  | b0 :: b1 :: b2 :: b3 :: rest =>
    (b0 * 2 ^ 24 + b1 * 2 ^ 16 + b2 * 2 ^ 8 + b3) :: bytesToWords rest
  | _ => []

/-- Extend the 16 message words to 64 schedule words. -/
def extendWords (w : List Nat) : Nat → List Nat
  | 0 => w
  | k + 1 =>
    let w1 := extendWords w k
    let t := w1.length
    w1 ++ [(ssig1 (w1.getD (t - 2) 0) + w1.getD (t - 7) 0 +
            ssig0 (w1.getD (t - 15) 0) + w1.getD (t - 16) 0) % 2 ^ 32]

/-- One round of the SHA-256 compression function. -/
def shaRound (st : List Nat) (kw : Nat × Nat) : List Nat :=
  match st with
  | [a, b, c, d, e, f, g, h] =>
    let t1 := (h + bsig1 e + sha_ch e f g + kw.1 + kw.2) % 2 ^ 32
    let t2 := (bsig0 a + sha_maj a b c) % 2 ^ 32
    [(t1 + t2) % 2 ^ 32, a, b, c, (d + t1) % 2 ^ 32, e, f, g]
  | _ => st

/-- Compress one 64-byte block into the running hash value. -/
def compressBlock (h : List Nat) (block : List Nat) : List Nat :=
  let w := extendWords (bytesToWords block) 48
  let st := (shaK.zip w).foldl shaRound h
  (h.zip st).map (fun p => (p.1 + p.2) % 2 ^ 32)

/-- SHA-256 of a byte list, as eight 32-bit words. -/
def sha256Words (msg : List Nat) : List Nat :=
  (chunks64 (shaPad msg)).foldl compressBlock shaH0

/-- One lowercase hex digit. -/
def hexDigit (d : Nat) : Char := Char.ofNat (if d < 10 then 48 + d else 87 + d)

/-- Eight lowercase hex digits of a 32-bit word. -/
def wordHex (w : Nat) : String :=
  String.mk ((List.range 8).map (fun i => hexDigit (w / 16 ^ (7 - i) % 16)))

/-- UTF-8 bytes of a string, as encode() produces in Python. -/
def strBytes (s : String) : List Nat := s.toUTF8.toList.map (fun b => b.toNat)

/-- hashlib.sha256(text.encode()).hexdigest(). -/
def sha256hex (s : String) : String :=
  String.join ((sha256Words (strBytes s)).map wordHex)

/-- The cache_prefix of the etax IdempotencyManager singleton
(idempotency.py lines 42 and 110): "idempotency:" + app_name. -/
def cache_prefix_etax : String := "idempotency:etax"

/-- IdempotencyManager.generate_key (idempotency.py lines 44-49):
cache_prefix + ":" + operation + ":" + first 16 hex digits of the SHA-256
of key_source. -/
def generate_key (operation : String) (params : List (String × PyVal)) : String :=
  cache_prefix_etax ++ ":" ++ operation ++ ":" ++
    (sha256hex (key_source operation params)).take 16

/-! ### get_or_execute (idempotency.py lines 86-106) over a TTL cache -/

/-- A stored idempotency record: the result, the store timestamp, and the
absolute expiry implied by the expires_in_sec argument of
frappe.cache().set_value. -/
structure CacheEntry (α : Type) where
  result : α
  timestamp : ℚ
  expires_at : ℚ

/-- The shared cache as an association list from keys to live entries;
set prepends and get honors the TTL. -/
def cache_get {α : Type} (now : ℚ) (c : List (String × CacheEntry α))
    (k : String) : Option (CacheEntry α) :=
  match c.lookup k with
  | some e => if now < e.expires_at then some e else none
  | none => none

/-- frappe.cache().set_value with expires_in_sec (IdempotencyManager.store,
idempotency.py lines 68-80). -/
def cache_set {α : Type} (k : String) (e : CacheEntry α)
    (c : List (String × CacheEntry α)) : List (String × CacheEntry α) :=
  (k, e) :: c

/-- Result of a get_or_execute call: the returned pair (result,
was_duplicate), the cache afterwards, and how many times the wrapped
function was invoked during this call. -/
structure ExecOut (α : Type) where
  result : α
  was_duplicate : Bool
  cache : List (String × CacheEntry α)
  calls : Nat

/-- IdempotencyManager.get_or_execute (idempotency.py lines 86-106):
generate the key, check the cache (IdempotencyManager.check, lines 51-66);
on a hit return the stored result with was_duplicate true without invoking
the function; on a miss invoke the function, store the result with TTL
ttl_hours * 3600 seconds (IdempotencyManager.store, lines 68-80) and return
it with was_duplicate false. -/
def get_or_execute {α : Type} (now : ℚ) (operation : String)
    (f : List (String × PyVal) → α) (ttl_hours : ℚ)
    (params : List (String × PyVal)) (c : List (String × CacheEntry α)) :
    ExecOut α :=
  let key := generate_key operation params
  match cache_get now c key with
  | some e => ⟨e.result, true, c, 0⟩
  | none =>
    let r := f params
    ⟨r, false, cache_set key ⟨r, now, now + ttl_hours * 3600⟩ c, 1⟩

/-- A sequence of immediate (same-instant) non-blocking acquisitions on one
bucket, returning the list of grant results and the final bucket state. -/
def acquire_seq (calls period now : ℚ) : Nat → RLState → List Bool × RLState
  | 0, s => ([], s)
  | n + 1, s =>
    let r := acquire_nonblocking calls period now s
    let rest := acquire_seq calls period now n r.2
    (r.1 :: rest.1, rest.2)

/-! ## Theorems -/

/-- C5: for a circuit breaker with failure_threshold=2, two consecutive
wrapped-call failures starting from CLOSED transition the state to OPEN;
any call before recovery_timeout elapses raises CircuitBreakerOpen without
invoking the wrapped function and leaves the state unchanged; once
recovery_timeout has elapsed the next call is admitted in HALF_OPEN, and
its success transitions the state to CLOSED with failure_count reset
to 0. -/
theorem c5_circuit_breaker_transitions
    {α : Type} (recovery : ℚ) (hmax : Nat) (t1 t2 t3 t4 : ℚ) (e : PyExc) (v : α)
    (f3 : Unit → Except PyExc α)
    (h3 : t3 - t2 ≤ recovery) (h4 : recovery < t4 - t2) :
    (circuit_call ⟨2, recovery, hmax⟩ t1 (fun _ => (Except.error e : Except PyExc α))
        initial_state).st = ⟨CircuitState.closed, 1, some t1, 0⟩ ∧
    (circuit_call ⟨2, recovery, hmax⟩ t2 (fun _ => (Except.error e : Except PyExc α))
        ⟨CircuitState.closed, 1, some t1, 0⟩).st = ⟨CircuitState.opened, 2, some t2, 0⟩ ∧
    circuit_call ⟨2, recovery, hmax⟩ t3 f3 ⟨CircuitState.opened, 2, some t2, 0⟩
      = ⟨Except.error PyExc.circuitBreakerOpen,
          ⟨CircuitState.opened, 2, some t2, 0⟩, false⟩ ∧
    (should_allow_request ⟨2, recovery, hmax⟩ t4
        ⟨CircuitState.opened, 2, some t2, 0⟩).allow = true ∧
    (should_allow_request ⟨2, recovery, hmax⟩ t4
        ⟨CircuitState.opened, 2, some t2, 0⟩).st.state = CircuitState.halfOpen ∧
    circuit_call ⟨2, recovery, hmax⟩ t4 (fun _ => (Except.ok v : Except PyExc α))
        ⟨CircuitState.opened, 2, some t2, 0⟩
      = ⟨Except.ok v, ⟨CircuitState.closed, 0, some t2, 0⟩, true⟩ := by
  have hA3 : should_allow_request ⟨2, recovery, hmax⟩ t3
      ⟨CircuitState.opened, 2, some t2, 0⟩
      = ⟨false, ⟨CircuitState.opened, 2, some t2, 0⟩, false⟩ := by
    simp only [should_allow_request]
    rw [if_neg (not_lt.mpr h3)]
  have hA4 : should_allow_request ⟨2, recovery, hmax⟩ t4
      ⟨CircuitState.opened, 2, some t2, 0⟩
      = ⟨true, ⟨CircuitState.halfOpen, 2, some t2, 0⟩, true⟩ := by
    simp only [should_allow_request]
    rw [if_pos h4]
  refine ⟨?_, ?_, ?_, ?_, ?_, ?_⟩
  · simp [circuit_call, should_allow_request, on_failure, initial_state]
  · simp [circuit_call, should_allow_request, on_failure]
  · simp [circuit_call, hA3]
  · rw [hA4]
  · rw [hA4]
  · simp [circuit_call, hA4, on_success]

/-- Closed instance of c5_circuit_breaker_transitions: recovery_timeout 60,
failures at times 0 and 1, rejected probe at time 30, successful probe at
time 100. -/
theorem c5_witness :
    (30 - 1 : ℚ) ≤ 60 ∧ (60 : ℚ) < 100 - 1 ∧
    (circuit_call ⟨2, 60, 3⟩ 100 (fun _ => (Except.ok 5 : Except PyExc Nat))
        ⟨CircuitState.opened, 2, some 1, 0⟩
      = ⟨Except.ok 5, ⟨CircuitState.closed, 0, some 1, 0⟩, true⟩) :=
  ⟨by norm_num, by norm_num,
    (c5_circuit_breaker_transitions 60 3 0 1 30 100 PyExc.timeoutError 5
      (fun _ => Except.ok 5) (by norm_num) (by norm_num)).2.2.2.2.2⟩

/-- C8: at every token tier (in-process memory, shared cache, persisted
store) a token expiring 30 seconds from now is treated as invalid while a
token expiring 120 seconds from now is treated as valid; each tier's
validity test is exactly now < expires_at - 60; and a get_token call whose
three tiers all hold tokens expiring 30 seconds from now falls through to a
network refresh, while a valid in-memory token is served from memory. -/
theorem c8_token_expiry_buffer (now e : ℚ) :
    is_token_valid (some "tok") (some (now + 30)) now = false ∧
    is_token_valid (some "tok") (some (now + 120)) now = true ∧
    etax_cache_get_token now (some ⟨"tok", now + 30⟩) = none ∧
    etax_cache_get_token now (some ⟨"tok", now + 120⟩) = some ⟨"tok", now + 120⟩ ∧
    load_stored_token now (some ("tok", now + 30)) = false ∧
    load_stored_token now (some ("tok", now + 120)) = true ∧
    (is_token_valid (some "tok") (some e) now = true ↔ now < e - 60) ∧
    ((etax_cache_get_token now (some ⟨"tok", e⟩)).isSome = true ↔ now < e - 60) ∧
    (load_stored_token now (some ("tok", e)) = true ↔ now < e - 60) ∧
    get_token now (some "tok") (some (now + 30)) (some ⟨"tok2", now + 30⟩)
        (some ("tok3", now + 30)) false = TokenSource.refreshed ∧
    get_token now (some "tok") (some (now + 120)) none none false
      = TokenSource.memory := by
  have h30 : ¬ now < now + 30 - 60 := by linarith
  have h120 : now < now + 120 - 60 := by linarith
  refine ⟨?_, ?_, ?_, ?_, ?_, ?_, ?_, ?_, ?_, ?_, ?_⟩
  · simp [is_token_valid, h30]
  · simp [is_token_valid, h120]
  · simp only [etax_cache_get_token]
    rw [if_neg (by intro h; exact h30 (by linarith))]
  · simp only [etax_cache_get_token]
    rw [if_pos (by linarith)]
  · simp only [load_stored_token]
    rw [if_pos (by linarith)]
  · simp only [load_stored_token]
    rw [if_neg (by intro h; exact absurd h120 (not_lt.mpr h))]
  · constructor
    · intro h
      by_contra hc
      simp [is_token_valid, hc] at h
    · intro h
      simp [is_token_valid, h]
  · constructor
    · intro h
      by_contra hc
      simp only [etax_cache_get_token] at h
      rw [if_neg (by intro hgt; exact hc (by linarith))] at h
      simp at h
    · intro h
      simp only [etax_cache_get_token]
      rw [if_pos (by linarith)]
      simp
  · constructor
    · intro h
      by_contra hc
      simp only [load_stored_token] at h
      rw [if_pos (by linarith)] at h
      simp at h
    · intro h
      simp only [load_stored_token]
      rw [if_neg (by intro hge; exact absurd h (not_lt.mpr (by linarith)))]
  · have hmem : is_token_valid (some "tok") (some (now + 30)) now = false := by
      simp [is_token_valid, h30]
    have hcache : etax_cache_get_token now (some ⟨"tok2", now + 30⟩) = none := by
      simp only [etax_cache_get_token]
      rw [if_neg (by intro hgt; exact h30 (by linarith))]
    have hstored : load_stored_token now (some ("tok3", now + 30)) = false := by
      simp only [load_stored_token]
      rw [if_pos (by linarith)]
    simp [get_token, hmem, hcache, hstored]
  · simp [get_token, is_token_valid, h120]

/-- C10: a successful wrapped call with the breaker CLOSED resets the
failure counter only in the in-process snapshot and performs no write to
the shared cache, so whatever failure count the shared store persisted is
left intact; state is written to the shared store only by the operations
that change the state enum and by the manual reset. -/
theorem c10_closed_success_writes_nothing_shared :
    (∀ s : CBState, s.state = CircuitState.closed →
      on_success s = ({ s with failure_count := 0 }, false)) ∧
    (∀ (shared : Option CBState) (s : CBState), s.state = CircuitState.closed →
      apply_save shared (on_success s).2 (on_success s).1 = shared) ∧
    (∀ s : CBState, (on_success s).2 = true →
      s.state = CircuitState.halfOpen ∧ (on_success s).1.state = CircuitState.closed) ∧
    (∀ (cfg : CBConfig) (now : ℚ) (s : CBState), (on_failure cfg now s).2 = true →
      (on_failure cfg now s).1.state ≠ s.state) ∧
    (∀ (cfg : CBConfig) (now : ℚ) (s : CBState),
      (should_allow_request cfg now s).saved = true →
      s.state = CircuitState.opened ∧
      (should_allow_request cfg now s).st.state = CircuitState.halfOpen) ∧
    cb_reset.2 = true := by
  refine ⟨?_, ?_, ?_, ?_, ?_, rfl⟩
  · intro s hs
    cases s with
    | mk st fc lft hoc => cases st <;> simp_all [on_success]
  · intro shared s hs
    cases s with
    | mk st fc lft hoc => cases st <;> simp_all [on_success, apply_save]
  · intro s h
    cases s with
    | mk st fc lft hoc =>
      cases st <;> simp_all [on_success]
  · intro cfg now s h
    rcases s with ⟨st, fc, lft, hoc⟩
    cases st with
    | closed =>
      by_cases hth : fc + 1 ≥ cfg.failure_threshold
      · simp [on_failure, hth]
      · simp [on_failure, hth] at h
    | opened => simp [on_failure] at h
    | halfOpen => simp [on_failure]
  · intro cfg now s h
    rcases s with ⟨st, fc, lft, hoc⟩
    cases st with
    | closed => simp [should_allow_request] at h
    | opened =>
      cases lft with
      | none => simp [should_allow_request] at h
      | some t =>
        by_cases hrt : now - t > cfg.recovery_timeout
        · exact ⟨rfl, by simp [should_allow_request, hrt]⟩
        · simp [should_allow_request, hrt] at h
    | halfOpen =>
      by_cases hh : hoc < cfg.half_open_max_calls <;>
        simp [should_allow_request, hh] at h

/-- Closed instance of the frame conjunct of
c10_closed_success_writes_nothing_shared: a shared snapshot holding
failure_count 7 survives an in-process success at failure_count 3. -/
theorem c10_witness :
    apply_save (some ⟨CircuitState.closed, 7, none, 0⟩)
        (on_success ⟨CircuitState.closed, 3, some 5, 2⟩).2
        (on_success ⟨CircuitState.closed, 3, some 5, 2⟩).1
      = some ⟨CircuitState.closed, 7, none, 0⟩ :=
  c10_closed_success_writes_nothing_shared.2.1
    (some ⟨CircuitState.closed, 7, none, 0⟩) ⟨CircuitState.closed, 3, some 5, 2⟩ rfl

/-- C9: a token bucket with capacity 10 and period 60 starting full grants
exactly 10 immediate non-blocking acquisitions and denies the 11th; after
period/capacity = 6 seconds exactly one more token is available (one more
grant succeeds and the next is denied); and for any bucket, one
non-blocking acquisition keeps the token count between 0 and the
capacity. -/
theorem c9_rate_limiter_conservation :
    (acquire_seq 10 60 0 11 ⟨10, 0⟩).1 = List.replicate 10 true ++ [false] ∧
    (acquire_seq 10 60 0 11 ⟨10, 0⟩).2 = ⟨0, 0⟩ ∧
    acquire_nonblocking 10 60 6 ⟨0, 0⟩ = (true, ⟨0, 6⟩) ∧
    acquire_nonblocking 10 60 6 (acquire_nonblocking 10 60 6 ⟨0, 0⟩).2
      = (false, ⟨0, 6⟩) ∧
    (∀ (calls period now : ℚ) (s : RLState), 0 < period → 1 ≤ calls →
      0 ≤ s.tokens → s.tokens ≤ calls → s.last_update ≤ now →
      0 ≤ (acquire_nonblocking calls period now s).2.tokens ∧
      (acquire_nonblocking calls period now s).2.tokens ≤ calls) := by
  have step_eq : ∀ (calls period now : ℚ) (s : RLState),
      acquire_nonblocking calls period now s =
        if 1 ≤ min calls (s.tokens + (now - s.last_update) * (calls / period)) then
          (true, ⟨min calls (s.tokens + (now - s.last_update) * (calls / period)) - 1, now⟩)
        else
          (false, ⟨min calls (s.tokens + (now - s.last_update) * (calls / period)), now⟩) := by
    intro calls period now s
    simp only [acquire_nonblocking, acquire, acquire_loop, acquire_step, refill]
    by_cases hge : 1 ≤ min calls (s.tokens + (now - s.last_update) * (calls / period)) <;>
      simp [hge]
  have hbound : ∀ (calls period now : ℚ) (s : RLState), 0 < period → 1 ≤ calls →
      0 ≤ s.tokens → s.tokens ≤ calls → s.last_update ≤ now →
      0 ≤ (acquire_nonblocking calls period now s).2.tokens ∧
      (acquire_nonblocking calls period now s).2.tokens ≤ calls := by
    intro calls period now s hp hc h0 hcap hlu
    have hrate : 0 ≤ (now - s.last_update) * (calls / period) := by
      apply mul_nonneg (by linarith)
      exact div_nonneg (by linarith) (le_of_lt hp)
    have h1 : 0 ≤ min calls (s.tokens + (now - s.last_update) * (calls / period)) :=
      le_min (by linarith) (by linarith)
    have h2 : min calls (s.tokens + (now - s.last_update) * (calls / period)) ≤ calls :=
      min_le_left _ _
    rw [step_eq]
    by_cases hge : 1 ≤ min calls (s.tokens + (now - s.last_update) * (calls / period))
    · rw [if_pos hge]
      exact ⟨by dsimp only; linarith, by dsimp only; linarith⟩
    · rw [if_neg hge]
      exact ⟨by dsimp only; linarith, by dsimp only; linarith⟩
  refine ⟨?_, ?_, ?_, ?_, hbound⟩
  · norm_num [acquire_seq, acquire_nonblocking, acquire, acquire_loop, acquire_step,
      refill, min_def, List.replicate]
  · norm_num [acquire_seq, acquire_nonblocking, acquire, acquire_loop, acquire_step,
      refill, min_def]
  · norm_num [acquire_nonblocking, acquire, acquire_loop, acquire_step, refill, min_def]
  · norm_num [acquire_nonblocking, acquire, acquire_loop, acquire_step, refill, min_def]

/-- Closed instance of the bounds conjunct of c9_rate_limiter_conservation
at capacity 10, period 60, a bucket holding 5 tokens last refilled at 0,
queried at time 3. -/
theorem c9_witness :
    (0 : ℚ) < 60 ∧ (1 : ℚ) ≤ 10 ∧
    0 ≤ (acquire_nonblocking 10 60 3 ⟨5, 0⟩).2.tokens ∧
    (acquire_nonblocking 10 60 3 ⟨5, 0⟩).2.tokens ≤ 10 :=
  ⟨by norm_num, by norm_num,
    (c9_rate_limiter_conservation.2.2.2.2 10 60 3 ⟨5, 0⟩ (by norm_num) (by norm_num)
      (by norm_num) (by norm_num) (by norm_num)).1,
    (c9_rate_limiter_conservation.2.2.2.2 10 60 3 ⟨5, 0⟩ (by norm_num) (by norm_num)
      (by norm_num) (by norm_num) (by norm_num)).2⟩

/-- C6: calling get_or_execute twice with the same operation and identical
parameters, the second call within the record's TTL, invokes the wrapped
function exactly once (one invocation in the first call, none in the
second); the first call reports was_duplicate false, and the second call
returns the stored result of the first call with was_duplicate true. -/
theorem c6_get_or_execute_once {α : Type} (now1 now2 : ℚ) (op : String)
    (f : List (String × PyVal) → α) (ttl : ℚ) (params : List (String × PyVal))
    (c : List (String × CacheEntry α))
    (h0 : cache_get now1 c (generate_key op params) = none)
    (h2 : now2 < now1 + ttl * 3600) :
    (get_or_execute now1 op f ttl params c).was_duplicate = false ∧
    (get_or_execute now1 op f ttl params c).result = f params ∧
    (get_or_execute now1 op f ttl params c).calls = 1 ∧
    (get_or_execute now2 op f ttl params
        (get_or_execute now1 op f ttl params c).cache).was_duplicate = true ∧
    (get_or_execute now2 op f ttl params
        (get_or_execute now1 op f ttl params c).cache).result = f params ∧
    (get_or_execute now2 op f ttl params
        (get_or_execute now1 op f ttl params c).cache).calls = 0 := by
  have hfirst : get_or_execute now1 op f ttl params c =
      ⟨f params, false,
        (generate_key op params,
          (⟨f params, now1, now1 + ttl * 3600⟩ : CacheEntry α)) :: c, 1⟩ := by
    simp [get_or_execute, h0, cache_set]
  have hget2 : cache_get now2
      ((generate_key op params,
        (⟨f params, now1, now1 + ttl * 3600⟩ : CacheEntry α)) :: c)
      (generate_key op params)
      = some ⟨f params, now1, now1 + ttl * 3600⟩ := by
    simp [cache_get, h2]
  rw [hfirst]
  refine ⟨rfl, rfl, rfl, ?_, ?_, ?_⟩ <;> simp [get_or_execute, hget2]

/-- Closed instance of c6_get_or_execute_once: a submit_report call with a
single year parameter, repeated 10 seconds later with TTL 24 hours. -/
theorem c6_witness :
    cache_get 0 ([] : List (String × CacheEntry Nat))
        (generate_key "submit_report" [("year", PyVal.int 2024)]) = none ∧
    (10 : ℚ) < 0 + 24 * 3600 ∧
    (get_or_execute 10 "submit_report" (fun _ => 7) 24 [("year", PyVal.int 2024)]
        (get_or_execute 0 "submit_report" (fun _ => 7) 24 [("year", PyVal.int 2024)]
          ([] : List (String × CacheEntry Nat))).cache).was_duplicate = true ∧
    (get_or_execute 10 "submit_report" (fun _ => 7) 24 [("year", PyVal.int 2024)]
        (get_or_execute 0 "submit_report" (fun _ => 7) 24 [("year", PyVal.int 2024)]
          ([] : List (String × CacheEntry Nat))).cache).result = 7 :=
  ⟨rfl, by norm_num,
    (c6_get_or_execute_once 0 10 "submit_report" (fun _ => 7) 24
      [("year", PyVal.int 2024)] [] rfl (by norm_num)).2.2.2.1,
    (c6_get_or_execute_once 0 10 "submit_report" (fun _ => 7) 24
      [("year", PyVal.int 2024)] [] rfl (by norm_num)).2.2.2.2.1⟩

/-- C1 (code evaluation): with the circuit breaker available — which is
always the case, since etax.utils.resilience is importable — every call
through ResilientETaxClient.get or .post evaluates
self.circuit_breaker.call, an attribute the CircuitBreaker class does not
define, so the call raises AttributeError for every wrapped function and
never invokes the inner client; no response body is returned.  This
contradicts the claim that the wrapped HTTP operation is invoked through
the circuit breaker and its response body returned. -/
theorem c1_attribute_error_not_breaker_call {α : Type} (cfg : CBConfig)
    (now : ℚ) (f : Unit → Except PyExc α) (cb : CBState) :
    circuit_breaker_attrs.contains "call" = false ∧
    resilient_client_get true cfg now f cb
      = (Except.error PyExc.attributeError, cb, false) ∧
    resilient_client_post true cfg now f cb
      = (Except.error PyExc.attributeError, cb, false) := by
  have hattr : circuit_breaker_attrs.contains "call" = false := by decide
  have hmem : "call" ∉ circuit_breaker_attrs := by decide
  refine ⟨hattr, ?_, ?_⟩ <;>
    simp [resilient_client_get, resilient_client_post, execute_with_resilience, hmem]

/-- C4 (code evaluation): when the gateway token request fails with a
requests-level exception (gateway unreachable), _request_new_token raises
ETaxAuthError immediately and the only endpoint ever contacted is the
gateway token endpoint — the direct fallback endpoint is not contacted (it
differs from the gateway endpoint and is absent from the contacted list).
The same holds for a non-2xx gateway response, which surfaces as an
"Authentication failed" ETaxAuthError, again with no fallback request. -/
theorem c4_no_direct_endpoint_fallback :
    request_new_token "Staging" (some "user") (some "pw")
        (fun _ => AuthNetResult.requestException "Connection refused")
      = (Except.error "Gateway connection failed: Connection refused",
          [token_endpoint "Staging"]) ∧
    token_endpoint_direct "Staging" ∉ [token_endpoint "Staging"] ∧
    request_new_token "Staging" (some "user") (some "pw")
        (fun _ => AuthNetResult.httpError 503 none)
      = (Except.error "Authentication failed: HTTP 503",
          [token_endpoint "Staging"]) := by
  refine ⟨rfl, ?_, rfl⟩
  decide

/-- Helper: a poll loop whose first refill-and-test attempt yields a token
returns immediately, whatever the blocking mode, timeout and remaining
fuel. -/
theorem acquire_loop_first_success (calls period : ℚ) (blocking : Bool)
    (timeout : Option ℚ) (start : ℚ) (fuel : Nat) (t : ℚ) (s s1 : RLState)
    (h : acquire_step calls period t s = (true, s1)) :
    acquire_loop calls period blocking timeout start (fuel + 1) t s = (true, s1) := by
  simp [acquire_loop, h]

/-- C3 (counterexample): with the circuit breaker OPEN since time 0 and not
yet recovered at time 10, a resilient_call against a full 60-token bucket
raises CircuitBreakerOpen while the bucket is left completely untouched
(still 60 tokens, last refill timestamp unchanged) and the wrapped function
is never invoked — so the fail-fast rejection happens with no rate-limiter
token having been acquired, contradicting the claim that a token is
acquired first. -/
theorem c3_counterexample :
    (resilient_call 10 (fun _ => (Except.ok 0 : Except PyExc Nat))
        ⟨CircuitState.opened, 5, some 0, 0⟩ ⟨60, 10⟩).result
      = Except.error PyExc.circuitBreakerOpen ∧
    (resilient_call 10 (fun _ => (Except.ok 0 : Except PyExc Nat))
        ⟨CircuitState.opened, 5, some 0, 0⟩ ⟨60, 10⟩).rl = ⟨60, 10⟩ ∧
    (resilient_call 10 (fun _ => (Except.ok 0 : Except PyExc Nat))
        ⟨CircuitState.opened, 5, some 0, 0⟩ ⟨60, 10⟩).attempts = 0 := by
  have hA : should_allow_request etax_cb_config 10 ⟨CircuitState.opened, 5, some 0, 0⟩
      = ⟨false, ⟨CircuitState.opened, 5, some 0, 0⟩, false⟩ := by
    simp only [should_allow_request, etax_cb_config]
    rw [if_neg (by norm_num)]
  refine ⟨?_, ?_, ?_⟩ <;> simp [resilient_call, hA]

/-- C3 (amended): in the composed resilient_call the circuit breaker
admission check runs first: when the breaker rejects, CircuitBreakerOpen is
raised with the rate limiter untouched and the wrapped function never
invoked; a rate-limiter token is acquired only when the breaker admits the
call, and if the acquisition times out the wrapped function is still never
invoked. -/
theorem c3_breaker_check_precedes_limiter (α : Type) (now : ℚ)
    (f : Nat → Except PyExc α) (cb : CBState) (rl : RLState) :
    ((should_allow_request etax_cb_config now cb).allow = false →
      resilient_call now f cb rl =
        ⟨Except.error PyExc.circuitBreakerOpen,
          (should_allow_request etax_cb_config now cb).st, rl, 0, []⟩) ∧
    ((should_allow_request etax_cb_config now cb).allow = true →
      (resilient_call now f cb rl).rl =
        (acquire etax_rl_calls etax_rl_period true (some 30) 400 now rl).2 ∧
      ((acquire etax_rl_calls etax_rl_period true (some 30) 400 now rl).1 = false →
        (resilient_call now f cb rl).result = Except.error PyExc.rateLimitExceeded ∧
        (resilient_call now f cb rl).attempts = 0)) := by
  constructor
  · intro h
    simp [resilient_call, h]
  · intro h
    by_cases hacq :
        (acquire etax_rl_calls etax_rl_period true (some 30) 400 now rl).1 = true
    · constructor
      · cases hr : (retry_with_backoff 3 1 60 2 transport_retryable f).result with
        | ok v => simp [resilient_call, h, hacq, hr]
        | error e => simp [resilient_call, h, hacq, hr]
      · intro hfail
        rw [hfail] at hacq
        cases hacq
    · have hacq' :
          (acquire etax_rl_calls etax_rl_period true (some 30) 400 now rl).1 = false := by
        simpa using hacq
      refine ⟨?_, fun _ => ⟨?_, ?_⟩⟩ <;> simp [resilient_call, h, hacq']

/-- Closed instance of c3_breaker_check_precedes_limiter: a CLOSED breaker
admits the call and the bucket state afterwards is exactly the acquire
result. -/
theorem c3_witness :
    (should_allow_request etax_cb_config 0 initial_state).allow = true ∧
    (resilient_call 0 (fun _ => (Except.ok 1 : Except PyExc Nat))
        initial_state ⟨60, 0⟩).rl
      = (acquire etax_rl_calls etax_rl_period true (some 30) 400 0 ⟨60, 0⟩).2 :=
  ⟨rfl,
    ((c3_breaker_check_precedes_limiter Nat 0 (fun _ => Except.ok 1)
      initial_state ⟨60, 0⟩).2 rfl).1⟩

/-- C2 (counterexample): a call through resilient_call whose underlying
transport times out — ETaxHTTPClient.get turns the requests Timeout into
ETaxHTTPError with status 408 — is invoked exactly once, with no backoff
sleeps, and the error surfaces immediately: the transport-level failure is
not retried, because the retry decorator matches only the builtins
ConnectionError and TimeoutError and ETaxHTTPError is neither. -/
theorem c2_counterexample :
    http_get_result TransportOutcome.timeout
      = Except.error (PyExc.etaxHTTPError (some 408)) ∧
    transport_retryable (PyExc.etaxHTTPError (some 408)) = false ∧
    (resilient_call 0 (fun _ => http_get_result TransportOutcome.timeout)
        initial_state ⟨60, 0⟩).attempts = 1 ∧
    (resilient_call 0 (fun _ => http_get_result TransportOutcome.timeout)
        initial_state ⟨60, 0⟩).sleeps = ([] : List ℚ) ∧
    (resilient_call 0 (fun _ => http_get_result TransportOutcome.timeout)
        initial_state ⟨60, 0⟩).result
      = Except.error (PyExc.etaxHTTPError (some 408)) := by
  have hstep : acquire_step etax_rl_calls etax_rl_period 0 ⟨60, 0⟩ = (true, ⟨59, 0⟩) := by
    norm_num [acquire_step, refill, min_def, etax_rl_calls, etax_rl_period]
  have hacq : acquire etax_rl_calls etax_rl_period true (some 30) 400 0 ⟨60, 0⟩
      = (true, ⟨59, 0⟩) := by
    show acquire_loop etax_rl_calls etax_rl_period true (some 30) 0 400 0 ⟨60, 0⟩
      = (true, ⟨59, 0⟩)
    exact acquire_loop_first_success _ _ _ _ _ 399 _ _ _ hstep
  have hr : retry_with_backoff 3 1 60 2 transport_retryable
      (fun _ => http_get_result TransportOutcome.timeout)
      = ⟨Except.error (PyExc.etaxHTTPError (some 408)), 1, []⟩ := rfl
  refine ⟨rfl, rfl, ?_, ?_, ?_⟩ <;>
    simp [resilient_call, should_allow_request, initial_state, hacq, hr]

/-- C2 (amended): through the composed resilient_call helper, a wrapped
function that keeps raising an exception matching the builtins
ConnectionError or TimeoutError is invoked 4 times (max_retries=3) with
exponential backoff sleeps of 1, 2 and 4 seconds before the error
surfaces; a wrapped function raising any other exception — including the
ETaxHTTPError into which the HTTP client converts transport failures, and
every application-level error response — is invoked exactly once with no
sleeps. -/
theorem c2_retry_only_builtin_transport (α : Type) (now : ℚ) (e : PyExc) :
    (transport_retryable e = true →
      (resilient_call now (fun _ => (Except.error e : Except PyExc α))
          initial_state (rl_initial 60 now)).attempts = 4 ∧
      (resilient_call now (fun _ => (Except.error e : Except PyExc α))
          initial_state (rl_initial 60 now)).sleeps = [1, 2, 4] ∧
      (resilient_call now (fun _ => (Except.error e : Except PyExc α))
          initial_state (rl_initial 60 now)).result = Except.error e) ∧
    (transport_retryable e = false →
      (resilient_call now (fun _ => (Except.error e : Except PyExc α))
          initial_state (rl_initial 60 now)).attempts = 1 ∧
      (resilient_call now (fun _ => (Except.error e : Except PyExc α))
          initial_state (rl_initial 60 now)).sleeps = ([] : List ℚ) ∧
      (resilient_call now (fun _ => (Except.error e : Except PyExc α))
          initial_state (rl_initial 60 now)).result = Except.error e) := by
  have hstep : acquire_step etax_rl_calls etax_rl_period now ⟨60, now⟩
      = (true, ⟨59, now⟩) := by
    norm_num [acquire_step, refill, min_def, etax_rl_calls, etax_rl_period]
  have hacq : acquire etax_rl_calls etax_rl_period true (some 30) 400 now ⟨60, now⟩
      = (true, ⟨59, now⟩) := by
    show acquire_loop etax_rl_calls etax_rl_period true (some 30) now 400 now ⟨60, now⟩
      = (true, ⟨59, now⟩)
    exact acquire_loop_first_success _ _ _ _ _ 399 _ _ _ hstep
  constructor
  · intro he
    have hr : retry_with_backoff 3 1 60 2 transport_retryable
        (fun _ => (Except.error e : Except PyExc α))
        = ⟨Except.error e, 4, [1, 2, 4]⟩ := by
      norm_num [retry_with_backoff, retry_go, he, min_def]
    refine ⟨?_, ?_, ?_⟩ <;>
      simp [resilient_call, should_allow_request, initial_state, rl_initial, hacq, hr]
  · intro he
    have hr : retry_with_backoff 3 1 60 2 transport_retryable
        (fun _ => (Except.error e : Except PyExc α))
        = ⟨Except.error e, 1, []⟩ := by
      simp [retry_with_backoff, retry_go, he]
    refine ⟨?_, ?_, ?_⟩ <;>
      simp [resilient_call, should_allow_request, initial_state, rl_initial, hacq, hr]

/-- Closed instance of c2_retry_only_builtin_transport: TimeoutError is
retried to 4 invocations; ETaxHTTPError 500 (an application-level error)
is invoked once. -/
theorem c2_witness :
    transport_retryable PyExc.timeoutError = true ∧
    (resilient_call 0 (fun _ => (Except.error PyExc.timeoutError : Except PyExc Nat))
        initial_state (rl_initial 60 0)).attempts = 4 ∧
    transport_retryable (PyExc.etaxHTTPError (some 500)) = false ∧
    (resilient_call 0
        (fun _ => (Except.error (PyExc.etaxHTTPError (some 500)) : Except PyExc Nat))
        initial_state (rl_initial 60 0)).attempts = 1 :=
  ⟨rfl, ((c2_retry_only_builtin_transport Nat 0 PyExc.timeoutError).1 rfl).1,
    rfl,
    ((c2_retry_only_builtin_transport Nat 0 (PyExc.etaxHTTPError (some 500))).2 rfl).1⟩

/-- Helper: sorting by parameter name sends any two permutations of one
duplicate-free parameter set to the same list. -/
theorem sort_params_perm_eq (l1 l2 : List (String × PyVal)) (hp : l1.Perm l2)
    (hnd : (l1.map Prod.fst).Nodup) : sort_params l1 = sort_params l2 := by
  have hp1 : (sort_params l1).Perm l1 := List.perm_insertionSort key_le l1
  have hp2 : (sort_params l2).Perm l2 := List.perm_insertionSort key_le l2
  have hperm : (sort_params l1).Perm (sort_params l2) :=
    hp1.trans (hp.trans hp2.symm)
  have hnd1 : ((sort_params l1).map Prod.fst).Nodup :=
    ((hp1.map Prod.fst).nodup_iff).mpr hnd
  have hnd2 : ((sort_params l2).map Prod.fst).Nodup :=
    ((hperm.map Prod.fst).nodup_iff).mp hnd1
  have hstrict : ∀ l : List (String × PyVal), List.Sorted key_le l →
      ((l.map Prod.fst).Nodup) → List.Sorted key_lt l := by
    intro l hs hnodup
    have hpw : List.Pairwise key_le l := hs
    have hne : List.Pairwise (fun a b : String × PyVal => a.1 ≠ b.1) l :=
      (List.pairwise_map).mp hnodup
    exact (hpw.and hne).imp (fun hab => lt_of_le_of_ne hab.1 hab.2)
  exact List.eq_of_perm_of_sorted hperm
    (hstrict _ (List.sorted_insertionSort key_le l1) hnd1)
    (hstrict _ (List.sorted_insertionSort key_le l2) hnd2)

/-- C7 (counterexample): two calls that differ in the value of one
parameter — the tuple (1, 2) versus the list [1, 2], distinct Python
values — produce the identical idempotency key, because json.dumps
serializes tuples and lists identically, so the hashed key sources
coincide. -/
theorem c7_counterexample :
    generate_key "submit_report" [("items", PyVal.tuple [PyVal.int 1, PyVal.int 2])]
      = generate_key "submit_report" [("items", PyVal.list [PyVal.int 1, PyVal.int 2])] ∧
    PyVal.tuple [PyVal.int 1, PyVal.int 2] ≠ PyVal.list [PyVal.int 1, PyVal.int 2] := by
  constructor
  · have hs : key_source "submit_report"
        [("items", PyVal.tuple [PyVal.int 1, PyVal.int 2])]
        = key_source "submit_report"
          [("items", PyVal.list [PyVal.int 1, PyVal.int 2])] := rfl
    simp only [generate_key, hs]
  · exact fun h => PyVal.noConfusion h

/-- C7 (amended): generate_key is invariant under reordering of a
duplicate-free keyword-parameter set; and two calls whose canonical JSON
serializations differ produce different pre-hash key sources (values that
serialize identically, such as a tuple and a list with the same elements,
produce the identical key, and distinctness of the final truncated-hash
key holds only up to SHA-256-truncation collisions). -/
theorem c7_generate_key_stability :
    (∀ (op : String) (l1 l2 : List (String × PyVal)), l1.Perm l2 →
      (l1.map Prod.fst).Nodup → generate_key op l1 = generate_key op l2) ∧
    (∀ (op : String) (l1 l2 : List (String × PyVal)),
      dumps_params l1 ≠ dumps_params l2 → key_source op l1 ≠ key_source op l2) := by
  constructor
  · intro op l1 l2 hp hnd
    have h := sort_params_perm_eq l1 l2 hp hnd
    simp [generate_key, key_source, dumps_params, h]
  · intro op l1 l2 hne h
    apply hne
    have hdata := congrArg String.data h
    simp only [key_source, String.data_append] at hdata
    have : (dumps_params l1).data = (dumps_params l2).data :=
      List.append_cancel_left hdata
    exact String.ext this

/-- Closed instance of c7_generate_key_stability: swapping the two keyword
parameters of a submit_report call leaves the key unchanged. -/
theorem c7_witness :
    ([("year", PyVal.int 2024), ("ent_id", PyVal.str "1234567")].Perm
      [("ent_id", PyVal.str "1234567"), ("year", PyVal.int 2024)]) ∧
    ((([("year", PyVal.int 2024), ("ent_id", PyVal.str "1234567")] :
        List (String × PyVal)).map Prod.fst).Nodup) ∧
    generate_key "submit_report"
        [("year", PyVal.int 2024), ("ent_id", PyVal.str "1234567")]
      = generate_key "submit_report"
          [("ent_id", PyVal.str "1234567"), ("year", PyVal.int 2024)] := by
  have hperm : ([("year", PyVal.int 2024), ("ent_id", PyVal.str "1234567")] :
      List (String × PyVal)).Perm
      [("ent_id", PyVal.str "1234567"), ("year", PyVal.int 2024)] :=
    List.Perm.swap _ _ _
  have hnd : ((([("year", PyVal.int 2024), ("ent_id", PyVal.str "1234567")] :
      List (String × PyVal)).map Prod.fst).Nodup) := by
    simp
  exact ⟨hperm, hnd,
    c7_generate_key_stability.1 "submit_report" _ _ hperm hnd⟩

end Etax
